import Mathlib

/-!
Verification of the generation-validation-retry agent (`agent.py`).

The Python source is shallowly embedded: pure string manipulation is
translated function-by-function; the external collaborators (the Groq
oracle, `camelot`, `pandas`/`difflib` rendering, the filesystem) are
modelled at their interface, exactly as the specification scopes them.
Machine floats in the tables are modelled as exact rationals (the
validator performs exact, tolerance-free comparison, so no rounding
semantics are needed); a `pandas` missing value (NaN in a numeric
column) is the explicit `Cell.missing` marker, and `DataFrame.equals`
treats two missing markers as equal, which structural equality on
`Cell` captures.
-/

namespace Agent

/-! ### Python string helpers -/

/-- Characters treated as whitespace by Python's `str.strip()`. -/
def isPySpace (c : Char) : Bool :=
  c = ' ' || c = '\t' || c = '\n' || c = '\r' || c = '\x0b' || c = '\x0c'

/-- The backtick character, used by the markdown fence handling. -/
def isBacktick (c : Char) : Bool := c.toNat = 96

/-- Drop characters satisfying `p` from both ends of a list
(Python `str.strip(chars)` on the character list). -/
def stripCharList (p : Char → Bool) (cs : List Char) : List Char :=
  ((cs.dropWhile p).reverse.dropWhile p).reverse

/-- Python `str.strip()` (no argument): strip whitespace from both ends. -/
def pyStrip (s : String) : String := ⟨stripCharList isPySpace s.data⟩

/-- Python `str.strip(chars)` restricted to the backtick character,
as used in `main` to remove the closing fence. -/
def stripBackticks (s : String) : String := ⟨stripCharList isBacktick s.data⟩

/-- Predicate `listStartsWith ps cs` holds when `ps` is an initial segment of `cs`
(Python `str.startswith`). -/
def listStartsWith : List Char → List Char → Bool
  | [], _ => true
  | _ :: _, [] => false
  | p :: ps, c :: cs => p = c && listStartsWith ps cs

/-- Python `needle in hay` on strings: `ns` occurs as a contiguous
substring of the character list. -/
def listHasSub (ns : List Char) : List Char → Bool
  | [] => ns.isEmpty
  | c :: cs => listStartsWith ns (c :: cs) || listHasSub ns cs

/-- Python substring containment `needle in hay`. -/
def strContains (hay needle : String) : Bool := listHasSub needle.data hay.data

/-- Python slicing `s[n:]`. -/
def strDrop (n : Nat) (s : String) : String := ⟨s.data.drop n⟩

/-- Python `str.replace(old, new)` for single characters, as used on
`Description` cells (`replace('\n', ' ')`). -/
def replaceChar (old new : Char) (s : String) : String :=
  ⟨s.data.map (fun c => if c = old then new else c)⟩

/-! ### Numeric cells and the best-effort numeric cast

`pd.to_numeric(col, errors='coerce')` is modelled by an explicit parser
for plain signed decimal literals (optional surrounding whitespace,
optional sign, digits with an optional fractional part); any string
outside that grammar is coerced to the missing marker.  The mode
argument records the library's `errors=` switch so that the contrast
between raising and coercing is part of the model. -/

/-- Numeric value of a digit list, most significant first. -/
def digitsToNat (cs : List Char) : Nat :=
  cs.foldl (fun a c => a * 10 + (c.toNat - 48)) 0

/-- Parse an unsigned decimal body: digits, optionally followed by a
point and further digits; at least one digit overall. -/
def parseUnsigned (cs : List Char) : Option ℚ :=
  let ip := cs.takeWhile Char.isDigit
  let rest := cs.dropWhile Char.isDigit
  match rest with
  | [] => if ip.isEmpty then none else some ((digitsToNat ip : ℚ))
  | '.' :: rest2 =>
    let fp := rest2.takeWhile Char.isDigit
    let rest3 := rest2.dropWhile Char.isDigit
    if rest3.isEmpty then
      if ip.isEmpty && fp.isEmpty then none
      else some ((digitsToNat ip : ℚ) + (digitsToNat fp : ℚ) / ((10 : ℚ) ^ fp.length))
    else none
  | _ => none

/-- Best-effort reading of one string as a number: `some q` when the
stripped string is a signed decimal literal, `none` otherwise. -/
def parseNumeric (s : String) : Option ℚ :=
  match (pyStrip s).data with
  | '-' :: rest => (parseUnsigned rest).map (fun q => -q)
  | '+' :: rest => parseUnsigned rest
  | cs => parseUnsigned cs

/-- The `errors=` switch of `pd.to_numeric`. -/
inductive ErrMode where
  | raiseErr : ErrMode
  | coerce : ErrMode
deriving DecidableEq, Repr

/-- Model of `pd.to_numeric` on one cell: an unparseable string raises under
`errors='raise'` and becomes the missing marker under
`errors='coerce'`; it is never replaced by zero. -/
def to_numeric (mode : ErrMode) (s : String) : Except String (Option ℚ) :=
  match parseNumeric s with
  | some q => Except.ok (some q)
  | none =>
    match mode with
    | ErrMode.raiseErr => Except.error ("Unable to parse string " ++ s)
    | ErrMode.coerce => Except.ok none

/-! ### Tables -/

/-- One table cell: a string, a finite numeric value, or the missing
marker (NaN in a numeric column). -/
inductive Cell where
  | strv (s : String) : Cell
  | numv (q : ℚ) : Cell
  | missing : Cell
deriving DecidableEq, Repr

/-- A dataframe after index reset: ordered column labels and rows of
cells (row order significant, positional index implicit). -/
structure Table where
  cols : List String
  rows : List (List Cell)
deriving DecidableEq, Repr

/-- The fixed five-column output schema. -/
def schemaCols : List String :=
  ["Date", "Description", "Debit Amt", "Credit Amt", "Balance"]

/-- Loader `read_csv_as_df`: the reference CSV parsed as text cells, with the
three numeric columns coerced best-effort (`errors='coerce'`), so an
unparseable value becomes the missing marker, never an error. -/
def read_csv_as_df (header : List String) (raw : List (List String)) : Table :=
  { cols := header
    rows := raw.map (fun r =>
      (List.zip header r).map (fun p =>
        if p.1 = "Debit Amt" || p.1 = "Credit Amt" || p.1 = "Balance" then
          match parseNumeric p.2 with
          | some q => Cell.numv q
          | none => Cell.missing
        else Cell.strv p.2)) }

/-! ### Filesystem model

Paths are segment lists (directory, file name).  A file carries either
raw text or a serialized table (the CSV written on success); only
existence and content matter to the claims, so the store is a flat
association list. -/

/-- A filesystem path, as a list of segments. -/
abbrev Path := List String

/-- Contents of a file: program text or a serialized result table. -/
inductive FileData where
  | text (s : String) : FileData
  | csv (t : Table) : FileData
deriving DecidableEq, Repr

/-- The filesystem: existing files with contents, and existing
directories. -/
structure FS where
  files : List (Path × FileData)
  dirs : List Path
deriving DecidableEq, Repr

/-- Whether a file exists (`Path.exists`). -/
def FS.fileExists (fs : FS) (p : Path) : Bool :=
  fs.files.any (fun e => e.1 = p)

/-- Contents of a file, when present. -/
def FS.look (fs : FS) (p : Path) : Option FileData :=
  (fs.files.find? (fun e => e.1 = p)).map Prod.snd

/-- Write a file (`Path.write_text` / `to_csv`): create or overwrite. -/
def FS.writeFile (fs : FS) (p : Path) (d : FileData) : FS :=
  { fs with files := (p, d) :: fs.files.filter (fun e => e.1 ≠ p) }

/-- Remove a file (`Path.unlink`). -/
def FS.unlink (fs : FS) (p : Path) : FS :=
  { fs with files := fs.files.filter (fun e => e.1 ≠ p) }

/-- Create a directory (`Path.mkdir(exist_ok=True)`). -/
def FS.mkdir (fs : FS) (p : Path) : FS :=
  if fs.dirs.contains p then fs else { fs with dirs := p :: fs.dirs }

/-- Touch a path (`Path.touch`): create an empty file when absent, keep an existing
file untouched. -/
def FS.touch (fs : FS) (p : Path) : FS :=
  if fs.fileExists p then fs else fs.writeFile p (FileData.text "")

/-- The scratch directory used by the sandbox runner. -/
def customParsersDir : Path := ["custom_parsers"]

/-- The package marker touched by the sandbox runner and the saver. -/
def initPath : Path := ["custom_parsers", "__init__.py"]

/-- Scratch file for one sandbox run: target name plus unique suffix. -/
def scratchPath (target uid : String) : Path :=
  ["custom_parsers", target ++ "_parser_" ++ uid ++ ".py"]

/-- Where the validator writes the verified output CSV. -/
def outputPath (target : String) : Path := ["output", target ++ "_output.csv"]

/-- Where an accepted parser is persisted permanently. -/
def parserPath (target : String) : Path := ["custom_parsers", target ++ "_parser.py"]

/-! ### Candidate programs and the sandbox runner

Executing arbitrary Python text is outside the embedding; what the
dynamic load and the `parse` call of a candidate do is an input to the
model (`PyOutcome`), distinguishing a load-phase exception, a run-phase
exception, and a returned table.  A Python exception is its class name
plus its message; `str(e)` yields the message only. -/

/-- A Python exception: class name and message; `str(e)` shows only
`msg`. -/
structure PyErr where
  kind : String
  msg : String
deriving DecidableEq, Repr

/-- What executing one candidate program does: the dynamic load raises,
the entry point raises, or a table is returned. -/
inductive PyOutcome where
  | loadError (e : PyErr) : PyOutcome
  | runError (e : PyErr) : PyOutcome
  | ok (t : Table) : PyOutcome
deriving DecidableEq, Repr

/-- The sandbox runner `run_generated_code`: persist the candidate under a unique scratch
name, load and run it (`b` is what that execution does), and in the
`finally` block delete the scratch file when it still exists.  Returns
the outcome and the filesystem after cleanup. -/
def run_generated_code (fs : FS) (code : String) (b : PyOutcome)
    (target uid : String) : Except PyErr Table × FS :=
  let sp := scratchPath target uid
  let fs1 := (((fs.mkdir customParsersDir).touch initPath).writeFile sp
    (FileData.text code))
  let fs2 := if fs1.fileExists sp then fs1.unlink sp else fs1
  match b with
  | PyOutcome.loadError e => (Except.error e, fs2)
  | PyOutcome.runError e => (Except.error e, fs2)
  | PyOutcome.ok t => (Except.ok t, fs2)

/-! ### Validator (`run_test`)

`difflib.unified_diff` over the `to_string` renderings is modelled at
interface level: it is empty exactly when the two row lists coincide,
and otherwise consists of two header lines followed by a removal and an
insertion line for each differing row (the rendering of distinct rows
is taken to be distinct). -/

/-- Display of one cell in a table rendering. -/
def renderCell : Cell → String
  | Cell.strv s => s
  | Cell.numv q => toString q
  | Cell.missing => "NaN"

/-- Display of one row in a table rendering.  Distinct cells may
render identically (the missing marker and the literal string `NaN`
both display as `NaN`), exactly as in a `pandas` rendering. -/
def renderRow (r : List Cell) : String :=
  String.intercalate "  " (r.map renderCell)

/-- The `to_string().splitlines()` rendering compared by the diff: one
display line per row. -/
def renderLines (t : Table) : List String :=
  t.rows.map renderRow

/-- Line-by-line difference of two rendered line lists: one `-`/`+`
pair per position whose display lines differ, plus trailing surplus
lines of either side. -/
def pairDiffLines : List String → List String → List String
  | [], [] => []
  | e :: es, [] => ("-" ++ e) :: pairDiffLines es []
  | [], g :: gs => ("+" ++ g) :: pairDiffLines [] gs
  | e :: es, g :: gs =>
    if e = g then pairDiffLines es gs
    else ("-" ++ e) :: ("+" ++ g) :: pairDiffLines es gs

/-- Model of `difflib.unified_diff` over the two tables'
`to_string` renderings: empty exactly when the rendered line lists
coincide (even for structurally different tables), otherwise headers
plus the per-line differences. -/
def unifiedDiff (expected got : Table) : List String :=
  if renderLines expected = renderLines got then []
  else "--- " :: "+++ " :: pairDiffLines (renderLines expected) (renderLines got)

/-- The success message printed when the candidate matches. -/
def successMsg (target : String) : String :=
  "✅ Parser matched expected output!\n   - Verification file saved to: output/"
    ++ target ++ "_output.csv"

/-- The validator `run_test`: reject empty code; run the candidate in the sandbox and
collapse any exception into one failure message; compare column lists,
then the whole tables (missing markers equal, no numeric tolerance);
on success write the output CSV and report, on mismatch report a
unified diff truncated to 40 lines. -/
def run_test (fs : FS) (target : String) (expected : Table) (code : String)
    (b : PyOutcome) (uid : String) : (Bool × String) × FS :=
  if pyStrip code = "" then ((false, "LLM returned empty code."), fs)
  else
    match run_generated_code fs code b target uid with
    | (Except.error e, fs1) => ((false, "IMPORT/RUNTIME ERROR:\n" ++ e.msg), fs1)
    | (Except.ok df, fs1) =>
      if df.cols ≠ expected.cols then
        ((false, "Mismatch columns.\nExpected: " ++ toString expected.cols
          ++ "\nGot: " ++ toString df.cols), fs1)
      else if df = expected then
        let fs2 := (fs1.mkdir ["output"]).writeFile (outputPath target)
          (FileData.csv df)
        ((true, successMsg target), fs2)
      else
        ((false, "Data mismatch. Debug:\n"
          ++ String.intercalate "\n" ((unifiedDiff expected df).take 40)), fs1)

/-- The saver `save_parser_code`: refuse empty or whitespace-only code, leaving
the filesystem untouched; otherwise ensure the directory and package
marker exist and persist the code at `custom_parsers/<target>_parser.py`. -/
def save_parser_code (fs : FS) (target : String) (code : String) : FS :=
  if pyStrip code = "" then fs
  else
    (((fs.mkdir customParsersDir).touch initPath).writeFile (parserPath target)
      (FileData.text code))

/-! ### Fence handling in the controller -/

/-- The opening tag the controller tests for. -/
def fenceTag : String := "```python"

/-- The fence handling inlined in `main`: when the stripped response
opens with the tag, drop its nine characters, strip backticks from both
ends, then strip whitespace; any other response passes through
unchanged. -/
def stripFence (code : String) : String :=
  let s := pyStrip code
  if listStartsWith fenceTag.data s.data then
    pyStrip (stripBackticks (strDrop 9 s))
  else code

/-! ### Fallback parser

`make_fallback_parser_code` returns fixed Python text; its meaning is
embedded as `fallback_parse` over the raw grids the table-extraction
collaborator returns.  `pd.concat` over grids with integer column
labels pads narrower grids with missing values up to the widest width.
Label errors that the Python would raise (`row[1]` on a narrow frame,
`df[0]` after the columns were relabelled to header strings, assigning
five names to fewer columns) surface as `Except.error`. -/

/-- One raw grid extracted from a page: rows of text cells. -/
abbrev RawGrid := List (List String)

/-- Width of one grid: its longest row. -/
def gridWidth (g : RawGrid) : Nat := (g.map List.length).foldr max 0

/-- Width of the concatenation: the widest grid. -/
def allWidth (ts : List RawGrid) : Nat := (ts.map gridWidth).foldr max 0

/-- Pad one row to width `w` with missing values (`pd.concat`
alignment). -/
def padRow (w : Nat) (r : List String) : List (Option String) :=
  (List.range w).map (fun j => r.get? j)

/-- Model of `pd.concat([table.df for table in tables], ignore_index=True)`. -/
def concatTables (ts : List RawGrid) : List (List (Option String)) :=
  ts.flatten.map (padRow (allWidth ts))

/-- Python `str(x)` on a cell that may be missing. -/
def cellStr : Option String → String
  | none => "nan"
  | some s => s

/-- Cell of a padded row at column label `j`. -/
def colAt (j : Nat) (r : List (Option String)) : Option String :=
  (r.get? j).join

/-- The header scan: the first row whose column 0 contains `Date` and
column 1 contains `Description`; accessing a column label that does not
exist raises. -/
def findHeaderIdx (w : Nat) : Nat → List (List (Option String)) →
    Except String (Option Nat)
  | _, [] => Except.ok none
  | i, r :: rs =>
    if w = 0 then Except.error "KeyError: 0"
    else if strContains (cellStr (colAt 0 r)) "Date" then
      if w < 2 then Except.error "KeyError: 1"
      else if strContains (cellStr (colAt 1 r)) "Description" then
        Except.ok (some i)
      else findHeaderIdx w (i + 1) rs
    else findHeaderIdx w (i + 1) rs

/-- Model of `str.match` against the anchored-at-start pattern
`\d{2}-\d{2}-\d{4}` (a prefix match, as `re.match` is). -/
def matchDate (s : String) : Bool :=
  match s.data with
  | d1 :: d2 :: '-' :: d3 :: d4 :: '-' :: d5 :: d6 :: d7 :: d8 :: _ =>
    d1.isDigit && d2.isDigit && d3.isDigit && d4.isDigit &&
    d5.isDigit && d6.isDigit && d7.isDigit && d8.isDigit
  | _ => false

/-- The row filter `df[0].str.match(..., na=False)` on column 0. -/
def datePred (r : List (Option String)) : Bool :=
  match colAt 0 r with
  | none => false
  | some s => matchDate s

/-- Description normalization: replace newlines by spaces, then strip;
a missing cell stays missing. -/
def normDesc : Option String → Option String
  | none => none
  | some s => some (pyStrip (replaceChar '\n' ' ' s))

/-- Best-effort numeric coercion of one amount cell: a non-numeric
string becomes the missing marker, never an error and never a dropped
row. -/
def coerceAmt : Option String → Cell
  | none => Cell.missing
  | some s =>
    match parseNumeric s with
    | some q => Cell.numv q
    | none => Cell.missing

/-- One working row under the five-column schema, before the final
date filters. -/
structure FRow where
  date : Option String
  desc : Option String
  debit : Cell
  credit : Cell
  balance : Cell
deriving DecidableEq, Repr

/-- Read one 5-wide working row into the schema, normalizing the
description and coercing the three amounts. -/
def toFRow (r : List (Option String)) : FRow :=
  { date := colAt 0 r, desc := normDesc (colAt 1 r),
    debit := coerceAmt (colAt 2 r), credit := coerceAmt (colAt 3 r),
    balance := coerceAmt (colAt 4 r) }

/-- Render one finalized row as output cells. -/
def frowCells (fr : FRow) : List Cell :=
  [(match fr.date with | some d => Cell.strv d | none => Cell.missing),
   (match fr.desc with | some d => Cell.strv d | none => Cell.missing),
   fr.debit, fr.credit, fr.balance]

/-- The tail of the fallback pipeline once the five schema columns are
assigned: per-cell normalization and coercion, `dropna` on `Date`, the
`DD-MM-YYYY` filter, index reset. -/
def finalize (rs : List (List (Option String))) : Table :=
  { cols := schemaCols
    rows := (((rs.map toFRow).filter (fun fr => fr.date.isSome)).filter
      (fun fr => match fr.date with | some s => matchDate s | none => false)).map
      frowCells }

/-- The fallback parser entry point `parse`, over the grids the extraction
collaborator returns for the input artifact. -/
def fallback_parse (ts : List RawGrid) : Except String Table :=
  if ts.isEmpty then Except.error "No tables found in PDF"
  else
    let w := allWidth ts
    let rows := concatTables ts
    match findHeaderIdx w 0 rows with
    | Except.error e => Except.error e
    | Except.ok hidx =>
      let work := match hidx with
        | some i => rows.drop (i + 1)
        | none => rows
      if w = 5 then Except.ok (finalize work)
      else if hidx.isSome then Except.error "KeyError: 0"
      else if w = 0 then Except.error "KeyError: 0"
      else if w < 5 then Except.error "ValueError: Length mismatch"
      else Except.ok (finalize ((work.filter datePred).map (List.take 5)))

/-- The fixed Python text returned by `make_fallback_parser_code`
(single-quoted Python literals written with double quotes). -/
def make_fallback_parser_code : String :=
  "\nimport pandas as pd\nimport camelot\n\ndef parse(pdf_path: str) -> pd.DataFrame:\n    tables = camelot.read_pdf(pdf_path, pages=\"all\", flavor=\"stream\")\n    if not tables:\n        raise ValueError(\"No tables found in PDF\")\n    df = pd.concat([table.df for table in tables], ignore_index=True)\n    header_index = -1\n    for i, row in df.iterrows():\n        if \"Date\" in str(row[0]) and \"Description\" in str(row[1]):\n            header_index = i\n            break\n    if header_index != -1:\n        df.columns = df.iloc[header_index]\n        df = df.iloc[header_index + 1:].reset_index(drop=True)\n    if df.shape[1] == 5:\n        df.columns = [\"Date\", \"Description\", \"Debit Amt\", \"Credit Amt\", \"Balance\"]\n    else:\n        df = df[df[0].str.match(r\"\\d{2}-\\d{2}-\\d{4}\", na=False)]\n        df = df.iloc[:, :5]\n        df.columns = [\"Date\", \"Description\", \"Debit Amt\", \"Credit Amt\", \"Balance\"]\n    df[\"Description\"] = df[\"Description\"].str.replace(\"\\n\", \" \", regex=False).str.strip()\n    for col in [\"Debit Amt\", \"Credit Amt\", \"Balance\"]:\n        df[col] = pd.to_numeric(df[col], errors=\"coerce\")\n    df.dropna(subset=[\"Date\"], inplace=True)\n    df = df[df[\"Date\"].str.match(r\"\\d{2}-\\d{2}-\\d{4}\", na=False)].reset_index(drop=True)\n    return df\n"

/-! ### The retry controller (`main`)

The oracle, the semantics of running any given program text, the
reference table and the per-attempt unique suffixes are inputs; the
trace records the exit code and how often each collaborator was
invoked. -/

/-- The environment one invocation runs in. -/
structure Env where
  pdfExists : Bool
  csvExists : Bool
  oracle : Nat → Except String String
  behavior : String → PyOutcome
  expected : Table
  uid : Nat → String

/-- Observable outcome of one invocation. -/
structure Trace where
  exitCode : Nat
  success : Bool
  oracleCalls : Nat
  runTestCalls : Nat
  sandboxRuns : Nat
  fallbackRuns : Nat
  fs : FS
deriving Repr

/-- Accumulated state of the attempt loop. -/
structure LoopState where
  fs : FS
  oracleCalls : Nat
  runTestCalls : Nat
  sandboxRuns : Nat
  success : Bool
deriving Repr

/-- Whether one `run_test` call reaches the sandbox runner (it does not
when the code is empty or whitespace-only). -/
def sandboxCount (code : String) : Nat :=
  if pyStrip code = "" then 0 else 1

/-- One iteration of the attempt loop: call the oracle (a transport
error is caught and recorded), strip the fence, test the candidate, and
persist it on success. -/
def attemptOnce (env : Env) (target : String) (n : Nat) (s : LoopState) :
    LoopState :=
  match env.oracle n with
  | Except.error _ => { s with oracleCalls := s.oracleCalls + 1 }
  | Except.ok raw =>
    let code := stripFence raw
    let r := run_test s.fs target env.expected code (env.behavior code) (env.uid n)
    let s1 : LoopState :=
      { fs := r.2, oracleCalls := s.oracleCalls + 1,
        runTestCalls := s.runTestCalls + 1,
        sandboxRuns := s.sandboxRuns + sandboxCount code, success := r.1.1 }
    if r.1.1 then { s1 with fs := save_parser_code r.2 target code } else s1

/-- The `for attempt in range(1, max_attempts + 1)` loop with its break
on success. -/
def runAttempts (env : Env) (target : String) :
    List Nat → LoopState → LoopState
  | [], s => s
  | n :: ns, s =>
    if s.success then s
    else runAttempts env target ns (attemptOnce env target n s)

/-- The controller `main`: missing input files exit with status 1 before any attempt;
otherwise up to three generation attempts, then one fallback test run
when none succeeded, terminal either way. -/
def mainRun (env : Env) (target : String) (fs0 : FS) : Trace :=
  if env.pdfExists = false || env.csvExists = false then
    { exitCode := 1, success := false, oracleCalls := 0, runTestCalls := 0,
      sandboxRuns := 0, fallbackRuns := 0, fs := fs0 }
  else
    let s := runAttempts env target [1, 2, 3]
      { fs := fs0, oracleCalls := 0, runTestCalls := 0, sandboxRuns := 0,
        success := false }
    if s.success then
      { exitCode := 0, success := true, oracleCalls := s.oracleCalls,
        runTestCalls := s.runTestCalls, sandboxRuns := s.sandboxRuns,
        fallbackRuns := 0, fs := s.fs }
    else
      let code := make_fallback_parser_code
      let r := run_test s.fs target env.expected code (env.behavior code)
        (env.uid 4)
      let fs1 := if r.1.1 then save_parser_code r.2 target code else r.2
      { exitCode := 0, success := r.1.1, oracleCalls := s.oracleCalls,
        runTestCalls := s.runTestCalls + 1,
        sandboxRuns := s.sandboxRuns + sandboxCount code, fallbackRuns := 1,
        fs := fs1 }

/-- The backtick character (written by code point to keep source
plain). -/
def bq : Char := Char.ofNat 96

/-! ### Helper lemmas on the filesystem model -/

theorem fileExists_unlink_self (fs : FS) (p : Path) :
    (fs.unlink p).fileExists p = false := by
  simp only [FS.unlink, FS.fileExists, List.any_eq_false]
  intro e he
  have := (List.mem_filter.mp he).2
  simpa using this

theorem any_filter_ne (es : List (Path × FileData)) (p q : Path) (h : p ≠ q) :
    ((es.filter fun e => decide (e.1 ≠ q)).any fun e => decide (e.1 = p))
      = (es.any fun e => decide (e.1 = p)) := by
  induction es with
  | nil => rfl
  | cons e es ih =>
    rw [List.filter_cons]
    by_cases heq : e.1 = q
    · have h1 : (decide (e.1 ≠ q)) = false := by simp [heq]
      have h2 : (decide (e.1 = p)) = false := by
        simp only [decide_eq_false_iff_not]
        rw [heq]
        exact fun hc => h hc.symm
      rw [h1]
      simp only [Bool.false_eq_true, if_false, List.any_cons, h2, Bool.false_or, ih]
    · have h1 : (decide (e.1 ≠ q)) = true := by simp [heq]
      rw [h1]
      simp only [if_true, List.any_cons, ih]

theorem fileExists_writeFile_ne (fs : FS) (p q : Path) (d : FileData)
    (h : p ≠ q) : (fs.writeFile q d).fileExists p = fs.fileExists p := by
  have hqp : (decide (q = p)) = false := by
    simp only [decide_eq_false_iff_not]
    exact fun hq => h hq.symm
  simp only [FS.writeFile, FS.fileExists, List.any_cons, hqp, Bool.false_or]
  exact any_filter_ne fs.files p q h

theorem fileExists_unlink_ne (fs : FS) (p q : Path) (h : p ≠ q) :
    (fs.unlink q).fileExists p = fs.fileExists p := by
  simp only [FS.unlink, FS.fileExists]
  exact any_filter_ne fs.files p q h

theorem files_mkdir (fs : FS) (p : Path) : (fs.mkdir p).files = fs.files := by
  unfold FS.mkdir
  split <;> rfl

theorem fileExists_mkdir (fs : FS) (p q : Path) :
    (fs.mkdir q).fileExists p = fs.fileExists p := by
  simp [FS.fileExists, files_mkdir]

theorem fileExists_touch_ne (fs : FS) (p q : Path) (h : p ≠ q) :
    (fs.touch q).fileExists p = fs.fileExists p := by
  unfold FS.touch
  split
  · rfl
  · exact fileExists_writeFile_ne fs p q (FileData.text "") h

theorem dirs_contains_mkdir_self (fs : FS) (p : Path) :
    ((fs.mkdir p).dirs.contains p) = true := by
  unfold FS.mkdir
  split
  · assumption
  · simp [List.contains_cons]

theorem look_writeFile_self (fs : FS) (p : Path) (d : FileData) :
    (fs.writeFile p d).look p = some d := by
  simp [FS.writeFile, FS.look, List.find?_cons]

theorem scratchPath_ne_outputPath (target uid t₂ : String) :
    scratchPath target uid ≠ outputPath t₂ := by
  intro h
  have h1 : "custom_parsers" = "output" := by
    simpa [scratchPath, outputPath] using congrArg (fun l => l.headI) h
  exact absurd h1 (by decide)

theorem initPath_ne_outputPath (t₂ : String) : initPath ≠ outputPath t₂ := by
  intro h
  have h1 : "custom_parsers" = "output" := by
    simpa [initPath, outputPath] using congrArg (fun l => l.headI) h
  exact absurd h1 (by decide)

/-! ### C1: guaranteed cleanup of the scratch file -/

/-- C1: for every candidate program (loading succeeds, loading fails,
or the entry point raises), after one `run_generated_code` call the
scratch file written for that call's unique identifier no longer exists
on disk. -/
theorem sandbox_scratch_file_removed (fs : FS) (code : String)
    (b : PyOutcome) (target uid : String) :
    ((run_generated_code fs code b target uid).2.fileExists
      (scratchPath target uid)) = false := by
  unfold run_generated_code
  cases b <;>
    · simp only []
      split
      · exact fileExists_unlink_self _ _
      · rename_i hno
        simpa using hno

/-! ### C10: empty code is never persisted -/

/-- C10: for every empty or whitespace-only code text,
`save_parser_code` returns without touching the filesystem, so the
persisted parser file `custom_parsers/<target>_parser.py` is neither
created nor overwritten and a previously accepted parser is left
unchanged. -/
theorem save_parser_code_empty_noop (fs : FS) (target code : String)
    (h : pyStrip code = "") : save_parser_code fs target code = fs := by
  simp [save_parser_code, h]

/-- Witness for C10 at a whitespace-only code text and a filesystem
already holding an accepted parser. -/
theorem save_parser_code_empty_noop_witness :
    save_parser_code
      ⟨[(parserPath "icici", FileData.text "old parser")], [customParsersDir]⟩
      "icici" "  \n  "
    = ⟨[(parserPath "icici", FileData.text "old parser")], [customParsersDir]⟩ :=
  save_parser_code_empty_noop
    ⟨[(parserPath "icici", FileData.text "old parser")], [customParsersDir]⟩
    "icici" "  \n  " rfl

/-! ### C4: the best-effort numeric cast is total -/

/-- C4: for every input string placed in a numeric column, the
reference loader's best-effort cast (`to_numeric` with
`errors='coerce'`) is total: it yields either a parsed numeric value or
the missing marker, never an exception and never zero as a substitute
for an unparseable value. -/
theorem to_numeric_coerce_total (s : String) :
    (∃ v, to_numeric ErrMode.coerce s = Except.ok v) ∧
    (parseNumeric s = none → to_numeric ErrMode.coerce s = Except.ok none) ∧
    (∀ q : ℚ, to_numeric ErrMode.coerce s = Except.ok (some q) →
      parseNumeric s = some q) := by
  unfold to_numeric
  cases h : parseNumeric s with
  | none =>
    refine ⟨⟨none, rfl⟩, fun _ => rfl, fun q hq => ?_⟩
    simp at hq
  | some q =>
    refine ⟨⟨some q, rfl⟩, fun hn => ?_, fun q₂ hq => ?_⟩
    · simp at hn
    · simp only [Except.ok.injEq, Option.some.injEq] at hq
      rw [hq]

/-- Witness for C4: an unparseable string coerces to the missing
marker, and a parsed value is the literal's exact rational value. -/
theorem to_numeric_coerce_total_witness :
    to_numeric ErrMode.coerce "abc" = Except.ok none ∧
    parseNumeric "7" = some ((7 : Nat) : ℚ) :=
  ⟨(to_numeric_coerce_total "abc").2.1 rfl,
   (to_numeric_coerce_total "7").2.2 ((7 : Nat) : ℚ) rfl⟩

/-! ### C3: the validator is exact equality with a bounded diff -/

/-- C3 counterexample: with matching columns and a single altered cell
— the reference holds the missing marker where the candidate holds the
literal string `NaN` — the validator returns fail, yet both rows
render to the same display line, so the reported diff is empty: the
unconditional non-empty-diff guarantee of the claim fails. -/
theorem run_test_single_cell_empty_diff :
    (run_test ⟨[], []⟩ "icici"
        ⟨schemaCols, [[Cell.strv "01-04-2024", Cell.strv "UPI Payment",
          Cell.missing, Cell.missing, Cell.numv 100]]⟩
        "x = 1"
        (PyOutcome.ok ⟨schemaCols, [[Cell.strv "01-04-2024",
          Cell.strv "UPI Payment", Cell.strv "NaN", Cell.missing,
          Cell.numv 100]]⟩) "u1").1
      = (false, "Data mismatch. Debug:\n") ∧
    unifiedDiff
      ⟨schemaCols, [[Cell.strv "01-04-2024", Cell.strv "UPI Payment",
        Cell.missing, Cell.missing, Cell.numv 100]]⟩
      ⟨schemaCols, [[Cell.strv "01-04-2024", Cell.strv "UPI Payment",
        Cell.strv "NaN", Cell.missing, Cell.numv 100]]⟩ = [] ∧
    (⟨schemaCols, [[Cell.strv "01-04-2024", Cell.strv "UPI Payment",
        Cell.strv "NaN", Cell.missing, Cell.numv 100]]⟩ : Table)
      ≠ ⟨schemaCols, [[Cell.strv "01-04-2024", Cell.strv "UPI Payment",
        Cell.missing, Cell.missing, Cell.numv 100]]⟩ := by
  refine ⟨?_, ?_, ?_⟩ <;> decide

/-- C3 amended: with a reference table carrying the fixed five-column
schema, a candidate equal to it cell-for-cell (missing markers
counting as equal) passes; with matching column sequences and any
differing cell it fails, reporting a diff of at most 40 lines, and
that diff is non-empty whenever the two tables render to different
line sequences (a single altered cell whose display differs from the
original's yields a non-empty diff; an alteration that renders
identically yields an empty one). -/
theorem run_test_exact_equality (fs : FS) (target uid code : String)
    (expected df : Table)
    (hschema : expected.cols = schemaCols)
    (hcode : pyStrip code ≠ "") :
    (expected = df →
      (run_test fs target expected code (PyOutcome.ok df) uid).1
        = (true, successMsg target)) ∧
    (df.cols = expected.cols → df ≠ expected →
      (run_test fs target expected code (PyOutcome.ok df) uid).1
        = (false, "Data mismatch. Debug:\n"
            ++ String.intercalate "\n" ((unifiedDiff expected df).take 40)) ∧
      ((unifiedDiff expected df).take 40).length ≤ 40 ∧
      (renderLines expected ≠ renderLines df →
        (unifiedDiff expected df).take 40 ≠ [])) := by
  constructor
  · intro heq
    subst heq
    simp [run_test, run_generated_code, hcode]
  · intro hcols hne
    have hneq : ¬ (df = expected) := hne
    have hc2 : ¬ (df.cols ≠ expected.cols) := by simpa using hcols
    refine ⟨?_, ?_, ?_⟩
    · simp [run_test, run_generated_code, hcode, hc2, hneq]
    · exact List.length_take_le _ _
    · intro hrend
      rw [unifiedDiff, if_neg hrend]
      show (("--- " :: "+++ "
        :: pairDiffLines (renderLines expected) (renderLines df)).take (39 + 1)) ≠ []
      rw [List.take_succ_cons]
      simp

/-- Witness for C3: a concrete reference with the fixed schema and an
identical candidate pass the validator. -/
theorem run_test_exact_equality_witness :
    (run_test ⟨[], []⟩ "icici"
        ⟨schemaCols, [[Cell.strv "01-04-2024", Cell.strv "UPI Payment",
          Cell.numv 500, Cell.missing, Cell.numv 10000]]⟩
        "x = 1"
        (PyOutcome.ok ⟨schemaCols, [[Cell.strv "01-04-2024",
          Cell.strv "UPI Payment", Cell.numv 500, Cell.missing,
          Cell.numv 10000]]⟩) "u1").1
      = (true, successMsg "icici") :=
  (run_test_exact_equality ⟨[], []⟩ "icici" "u1" "x = 1"
    ⟨schemaCols, [[Cell.strv "01-04-2024", Cell.strv "UPI Payment",
      Cell.numv 500, Cell.missing, Cell.numv 10000]]⟩
    ⟨schemaCols, [[Cell.strv "01-04-2024", Cell.strv "UPI Payment",
      Cell.numv 500, Cell.missing, Cell.numv 10000]]⟩
    rfl (by decide)).1 rfl

/-! ### C9: the pass verdict writes the output file, failure does not -/

theorem dirs_writeFile (fs : FS) (p : Path) (d : FileData) :
    (fs.writeFile p d).dirs = fs.dirs := rfl

theorem run_generated_code_preserves_output (fs : FS) (code : String)
    (b : PyOutcome) (target uid t₂ : String)
    (hout : fs.fileExists (outputPath t₂) = false) :
    ((run_generated_code fs code b target uid).2).fileExists (outputPath t₂)
      = false := by
  unfold run_generated_code
  have h1 : ((((fs.mkdir customParsersDir).touch initPath).writeFile
      (scratchPath target uid) (FileData.text code))).fileExists (outputPath t₂)
      = false := by
    rw [fileExists_writeFile_ne _ _ _ _
      (fun h => scratchPath_ne_outputPath target uid t₂ h.symm)]
    rw [fileExists_touch_ne _ _ _ (fun h => initPath_ne_outputPath t₂ h.symm)]
    rw [fileExists_mkdir]
    exact hout
  cases b <;>
    · simp only []
      split
      · rw [fileExists_unlink_ne _ _ _
          (fun h => scratchPath_ne_outputPath target uid t₂ h.symm)]
        exact h1
      · exact h1

/-- C9: whenever the validator reaches a pass verdict it has written
the (matching) result table to `output/<target>_output.csv`, with the
`output` directory present; on any failure verdict the output file is
still absent. -/
theorem run_test_output_write (fs : FS) (target uid code : String)
    (expected : Table) (b : PyOutcome)
    (hout : fs.fileExists (outputPath target) = false) :
    ((run_test fs target expected code b uid).1.1 = true →
      ((run_test fs target expected code b uid).2.look (outputPath target)
          = some (FileData.csv expected) ∧
        (((run_test fs target expected code b uid).2.dirs.contains ["output"])
          = true))) ∧
    ((run_test fs target expected code b uid).1.1 = false →
      (run_test fs target expected code b uid).2.fileExists (outputPath target)
        = false) := by
  unfold run_test
  split
  · exact ⟨fun h => by simp at h, fun _ => hout⟩
  · rcases hr : run_generated_code fs code b target uid with ⟨res, fs1⟩
    have hfs1 : fs1.fileExists (outputPath target) = false := by
      have := run_generated_code_preserves_output fs code b target uid target hout
      rw [hr] at this
      exact this
    cases res with
    | error e =>
      dsimp only
      exact ⟨fun h => by simp at h, fun _ => hfs1⟩
    | ok df =>
      dsimp only
      split
      · exact ⟨fun h => by simp at h, fun _ => hfs1⟩
      · split
        · rename_i heq
          refine ⟨fun _ => ⟨?_, ?_⟩, fun h => by simp at h⟩
          · show ((fs1.mkdir ["output"]).writeFile (outputPath target)
                (FileData.csv df)).look (outputPath target)
              = some (FileData.csv expected)
            rw [look_writeFile_self, heq]
          · show (((fs1.mkdir ["output"]).writeFile (outputPath target)
                (FileData.csv df)).dirs.contains ["output"]) = true
            rw [dirs_writeFile]
            exact dirs_contains_mkdir_self _ _
        · exact ⟨fun h => by simp at h, fun _ => hfs1⟩

/-- Witness for C9 at a concrete passing run on an initially empty
filesystem. -/
theorem run_test_output_write_witness :
    ((run_test ⟨[], []⟩ "icici" ⟨schemaCols, []⟩ "x = 1"
        (PyOutcome.ok ⟨schemaCols, []⟩) "u1").2.look (outputPath "icici")
      = some (FileData.csv ⟨schemaCols, []⟩)) ∧
    (((run_test ⟨[], []⟩ "icici" ⟨schemaCols, []⟩ "x = 1"
        (PyOutcome.ok ⟨schemaCols, []⟩) "u1").2.dirs.contains ["output"])
      = true) :=
  (run_test_output_write ⟨[], []⟩ "icici" "u1" "x = 1" ⟨schemaCols, []⟩
    (PyOutcome.ok ⟨schemaCols, []⟩) rfl).1 rfl

/-! ### C5: markdown fence handling in the controller -/

theorem listStartsWith_append (ps cs : List Char) :
    listStartsWith ps (ps ++ cs) = true := by
  induction ps with
  | nil => rfl
  | cons p ps ih => simp [listStartsWith, ih]

/-- C5 counterexample: a response wrapped in a plain markdown fence
(no `python` tag) is passed through unchanged, with the fence wrapper
still in place, instead of being reduced to the inner program text. -/
theorem stripFence_plain_fence_not_stripped :
    stripFence "```\nX\n```" = "```\nX\n```" ∧
    stripFence "```\nX\n```" ≠ "X" :=
  ⟨rfl, by decide⟩

/-- C5 amended: a response wrapped in a fence that opens with the
`python` tag is reduced to the inner program text (for inner text with
no leading or trailing whitespace). -/
theorem stripFence_python_fence (body : String)
    (h1 : body.data.dropWhile isPySpace = body.data)
    (h2 : body.data.reverse.dropWhile isPySpace = body.data.reverse) :
    stripFence ("```python\n" ++ body ++ "\n```") = body := by
  have hbq : isPySpace bq = false := by decide
  have hbt : isBacktick '\n' = false := by decide
  have hnl : isPySpace '\n' = true := by decide
  have hW : ("```python\n" ++ body ++ "\n```").data
      = bq :: bq :: bq :: 'p' :: 'y' :: 't' :: 'h' :: 'o' :: 'n' :: '\n'
        :: (body.data ++ ['\n', bq, bq, bq]) := rfl
  have hW2 : ("```python\n" ++ body ++ "\n```").data
      = (bq :: bq :: bq :: 'p' :: 'y' :: 't' :: 'h' :: 'o' :: 'n' :: '\n'
          :: (body.data ++ ['\n', bq, bq])) ++ [bq] := by
    rw [hW]
    simp [List.append_assoc]
  have ha : List.dropWhile isPySpace ("```python\n" ++ body ++ "\n```").data
      = ("```python\n" ++ body ++ "\n```").data := by
    rw [hW, List.dropWhile_cons]
    rw [if_neg (by simp [hbq])]
  have hb : stripCharList isPySpace ("```python\n" ++ body ++ "\n```").data
      = ("```python\n" ++ body ++ "\n```").data := by
    show List.rdropWhile isPySpace
      (List.dropWhile isPySpace ("```python\n" ++ body ++ "\n```").data)
      = ("```python\n" ++ body ++ "\n```").data
    rw [ha, hW2, List.rdropWhile_concat_neg]
    simp [hbq]
  have hstrip : pyStrip ("```python\n" ++ body ++ "\n```")
      = "```python\n" ++ body ++ "\n```" := by
    show String.mk (stripCharList isPySpace _) = _
    rw [hb]
  rw [stripFence, hstrip]
  have hW3 : ("```python\n" ++ body ++ "\n```").data
      = fenceTag.data ++ ('\n' :: (body.data ++ ['\n', bq, bq, bq])) := hW
  rw [if_pos]
  · -- the stripped and trimmed inner text is the body
    have hdrop : strDrop 9 ("```python\n" ++ body ++ "\n```")
        = ⟨'\n' :: (body.data ++ ['\n', bq, bq, bq])⟩ := by
      show String.mk (("```python\n" ++ body ++ "\n```").data.drop 9) = _
      rw [hW3]
      rw [show (9 : Nat) = fenceTag.data.length from rfl]
      rw [List.drop_left]
    rw [hdrop]
    have hfr : List.dropWhile isBacktick ('\n' :: (body.data ++ ['\n', bq, bq, bq]))
        = '\n' :: (body.data ++ ['\n', bq, bq, bq]) := by
      rw [List.dropWhile_cons, if_neg (by simp [hbt])]
    have hback : List.rdropWhile isBacktick ('\n' :: (body.data ++ ['\n', bq, bq, bq]))
        = '\n' :: (body.data ++ ['\n']) := by
      show (('\n' :: (body.data ++ ['\n', bq, bq, bq])).reverse.dropWhile isBacktick).reverse
        = '\n' :: (body.data ++ ['\n'])
      have hrv : ('\n' :: (body.data ++ ['\n', bq, bq, bq])).reverse
          = bq :: bq :: bq :: '\n' :: (body.data.reverse ++ ['\n']) := by
        simp
      rw [hrv]
      rw [List.dropWhile_cons, if_pos (by decide)]
      rw [List.dropWhile_cons, if_pos (by decide)]
      rw [List.dropWhile_cons, if_pos (by decide)]
      rw [List.dropWhile_cons, if_neg (by simp [hbt])]
      simp
    have hbtick : stripBackticks ⟨'\n' :: (body.data ++ ['\n', bq, bq, bq])⟩
        = ⟨'\n' :: (body.data ++ ['\n'])⟩ := by
      have hsc : stripCharList isBacktick ('\n' :: (body.data ++ ['\n', bq, bq, bq]))
          = '\n' :: (body.data ++ ['\n']) := by
        show List.rdropWhile isBacktick
          (List.dropWhile isBacktick ('\n' :: (body.data ++ ['\n', bq, bq, bq])))
          = '\n' :: (body.data ++ ['\n'])
        rw [hfr]
        exact hback
      show String.mk (stripCharList isBacktick ('\n' :: (body.data ++ ['\n', bq, bq, bq]))) = _
      rw [hsc]
    rw [hbtick]
    -- final whitespace strip of the newline-wrapped body
    have hws : stripCharList isPySpace ('\n' :: (body.data ++ ['\n'])) = body.data := by
      have hfr1 : List.dropWhile isPySpace ('\n' :: (body.data ++ ['\n']))
          = List.dropWhile isPySpace (body.data ++ ['\n']) := by
        rw [List.dropWhile_cons, if_pos (by simp [hnl])]
      show List.rdropWhile isPySpace
        (List.dropWhile isPySpace ('\n' :: (body.data ++ ['\n']))) = body.data
      rw [hfr1]
      cases hbs : body.data with
      | nil => decide
      | cons c rest =>
        have hc : isPySpace c = false := by
          rw [hbs] at h1
          have := (List.dropWhile_eq_self_iff).mp h1 (by simp)
          simpa using this
        have hfr2 : List.dropWhile isPySpace ((c :: rest) ++ ['\n'])
            = (c :: rest) ++ ['\n'] := by
          rw [List.cons_append, List.dropWhile_cons, if_neg (by simp [hc])]
        rw [hfr2]
        have hrd : List.rdropWhile isPySpace ((c :: rest) ++ ['\n'])
            = List.rdropWhile isPySpace (c :: rest) := by
          rw [List.rdropWhile_concat_pos]
          decide
        rw [hrd]
        show ((c :: rest).reverse.dropWhile isPySpace).reverse = c :: rest
        rw [hbs] at h2
        rw [h2, List.reverse_reverse]
    show String.mk (stripCharList isPySpace ('\n' :: (body.data ++ ['\n']))) = body
    rw [hws]
  · -- the stripped response does start with the fence tag
    rw [hW3]
    exact listStartsWith_append _ _

/-- Witness for C5 amended at a concrete fenced response. -/
theorem stripFence_python_fence_witness :
    stripFence ("```python\n" ++ "print(1)" ++ "\n```") = "print(1)" :=
  stripFence_python_fence "print(1)" rfl rfl

/-! ### C6: the two sandbox failure phases, seen from the caller -/

/-- C6 counterexample: a load-phase failure (here a syntax error) and a
run-phase failure carrying the same message produce identical
`run_test` results — one shared failure shape, so the two failure kinds
are not distinguishable by the caller. -/
theorem run_test_error_kinds_collapsed :
    run_test ⟨[], []⟩ "icici" ⟨schemaCols, []⟩ "x = 1"
        (PyOutcome.loadError ⟨"SyntaxError", "boom"⟩) "u1"
      = run_test ⟨[], []⟩ "icici" ⟨schemaCols, []⟩ "x = 1"
        (PyOutcome.runError ⟨"ValueError", "boom"⟩) "u1" ∧
    (run_test ⟨[], []⟩ "icici" ⟨schemaCols, []⟩ "x = 1"
        (PyOutcome.loadError ⟨"SyntaxError", "boom"⟩) "u1").1
      = (false, "IMPORT/RUNTIME ERROR:\nboom") :=
  ⟨rfl, rfl⟩

/-- C6 amended: the sandbox runner propagates the load-phase exception
unchanged when loading fails, and the entry point's own exception when
execution raises; the caller `run_test` collapses both into the single
failure shape `(false, "IMPORT/RUNTIME ERROR:" + message)`, so the two
kinds are told apart only by their exception contents, not as distinct
outcome kinds. -/
theorem sandbox_error_propagation (fs : FS) (target uid code : String)
    (expected : Table) (e₁ e₂ : PyErr) (hcode : pyStrip code ≠ "") :
    (run_generated_code fs code (PyOutcome.loadError e₁) target uid).1
      = Except.error e₁ ∧
    (run_generated_code fs code (PyOutcome.runError e₂) target uid).1
      = Except.error e₂ ∧
    (run_test fs target expected code (PyOutcome.loadError e₁) uid).1
      = (false, "IMPORT/RUNTIME ERROR:\n" ++ e₁.msg) ∧
    (run_test fs target expected code (PyOutcome.runError e₂) uid).1
      = (false, "IMPORT/RUNTIME ERROR:\n" ++ e₂.msg) := by
  refine ⟨rfl, rfl, ?_, ?_⟩ <;> simp [run_test, run_generated_code, hcode]

/-- Witness for C6 amended at a concrete load failure. -/
theorem sandbox_error_propagation_witness :
    (run_test ⟨[], []⟩ "icici" ⟨schemaCols, []⟩ "x = 1"
        (PyOutcome.loadError ⟨"SyntaxError", "bad token"⟩) "u1").1
      = (false, "IMPORT/RUNTIME ERROR:\n" ++ "bad token") :=
  (sandbox_error_propagation ⟨[], []⟩ "icici" "u1" "x = 1" ⟨schemaCols, []⟩
    ⟨"SyntaxError", "bad token"⟩ ⟨"ValueError", "oops"⟩ (by decide)).2.2.1

/-! ### C7: missing input aborts before any attempt -/

/-- C7: when the input artifact or the reference file is absent, the
program exits with status 1, makes no oracle call, no `run_test` call
and no sandbox run, and leaves the filesystem untouched. -/
theorem missing_input_aborts (env : Env) (target : String) (fs0 : FS)
    (h : env.pdfExists = false ∨ env.csvExists = false) :
    (mainRun env target fs0).exitCode = 1 ∧
    (mainRun env target fs0).oracleCalls = 0 ∧
    (mainRun env target fs0).runTestCalls = 0 ∧
    (mainRun env target fs0).sandboxRuns = 0 ∧
    (mainRun env target fs0).fs = fs0 := by
  rcases h with h | h <;> simp [mainRun, h]

/-- Witness for C7 with the input artifact missing. -/
theorem missing_input_aborts_witness :
    (mainRun ⟨false, true, fun _ => Except.ok "",
        fun _ => PyOutcome.ok ⟨schemaCols, []⟩, ⟨schemaCols, []⟩,
        fun _ => "u"⟩ "icici" ⟨[], []⟩).exitCode = 1 ∧
    (mainRun ⟨false, true, fun _ => Except.ok "",
        fun _ => PyOutcome.ok ⟨schemaCols, []⟩, ⟨schemaCols, []⟩,
        fun _ => "u"⟩ "icici" ⟨[], []⟩).oracleCalls = 0 :=
  ⟨(missing_input_aborts _ "icici" ⟨[], []⟩ (Or.inl rfl)).1,
   (missing_input_aborts _ "icici" ⟨[], []⟩ (Or.inl rfl)).2.1⟩

/-! ### C2: the retry bound and the single terminal fallback -/

theorem pyStrip_nil : pyStrip "" = "" := rfl

theorem stripFence_nil : stripFence "" = "" := rfl

theorem run_test_empty_code (fs : FS) (target : String) (expected : Table)
    (code : String) (b : PyOutcome) (uid : String) (h : pyStrip code = "") :
    run_test fs target expected code b uid
      = ((false, "LLM returned empty code."), fs) := by
  simp [run_test, h]

theorem attemptOnce_empty (env : Env) (target : String) (n : Nat)
    (s : LoopState) (h : env.oracle n = Except.ok "") :
    attemptOnce env target n s
      = { fs := s.fs, oracleCalls := s.oracleCalls + 1,
          runTestCalls := s.runTestCalls + 1, sandboxRuns := s.sandboxRuns,
          success := false } := by
  unfold attemptOnce
  rw [h]
  simp [stripFence_nil, run_test_empty_code, pyStrip_nil, sandboxCount]

set_option maxRecDepth 10000 in
/-- C2: with an oracle stub that always returns empty text (and the
input files present), the controller makes exactly 3 generation
attempts, then runs the fallback test exactly once (4 `run_test` calls
in total), and the fallback verdict is the terminal success value — no
further retry happens after the fallback. -/
theorem retry_bound_empty_oracle (env : Env) (target : String) (fs0 : FS)
    (hpdf : env.pdfExists = true) (hcsv : env.csvExists = true)
    (hor : ∀ n, env.oracle n = Except.ok "") :
    (mainRun env target fs0).oracleCalls = 3 ∧
    (mainRun env target fs0).fallbackRuns = 1 ∧
    (mainRun env target fs0).runTestCalls = 4 ∧
    (mainRun env target fs0).success
      = (run_test fs0 target env.expected make_fallback_parser_code
          (env.behavior make_fallback_parser_code) (env.uid 4)).1.1 := by
  have hs : runAttempts env target [1, 2, 3] ⟨fs0, 0, 0, 0, false⟩
      = ⟨fs0, 3, 3, 0, false⟩ := by
    rw [runAttempts]
    rw [if_neg (by simp)]
    rw [attemptOnce_empty env target 1 _ (hor 1)]
    rw [runAttempts]
    rw [if_neg (by simp)]
    rw [attemptOnce_empty env target 2 _ (hor 2)]
    rw [runAttempts]
    rw [if_neg (by simp)]
    rw [attemptOnce_empty env target 3 _ (hor 3)]
    rfl
  unfold mainRun
  rw [hpdf, hcsv]
  rw [if_neg (by simp)]
  rw [hs]
  exact ⟨rfl, rfl, rfl, rfl⟩

/-- Witness for C2 at a fully concrete environment whose oracle always
replies with empty text. -/
theorem retry_bound_empty_oracle_witness :
    (mainRun ⟨true, true, fun _ => Except.ok "",
        fun _ => PyOutcome.runError ⟨"ValueError", "e"⟩, ⟨schemaCols, []⟩,
        fun _ => "u"⟩ "icici" ⟨[], []⟩).oracleCalls = 3 ∧
    (mainRun ⟨true, true, fun _ => Except.ok "",
        fun _ => PyOutcome.runError ⟨"ValueError", "e"⟩, ⟨schemaCols, []⟩,
        fun _ => "u"⟩ "icici" ⟨[], []⟩).fallbackRuns = 1 :=
  ⟨(retry_bound_empty_oracle _ "icici" ⟨[], []⟩ rfl rfl (fun _ => rfl)).1,
   (retry_bound_empty_oracle _ "icici" ⟨[], []⟩ rfl rfl (fun _ => rfl)).2.1⟩

/-! ### C8: fallback parser schema and row invariants -/

theorem coerceAmt_shape (os : Option String) :
    coerceAmt os = Cell.missing ∨ ∃ q, coerceAmt os = Cell.numv q := by
  unfold coerceAmt
  split
  · exact Or.inl rfl
  · split
    · exact Or.inr ⟨_, rfl⟩
    · exact Or.inl rfl

theorem fallback_finalize_shape (rs : List (List (Option String))) :
    (finalize rs).cols = schemaCols ∧
    ∀ r ∈ (finalize rs).rows, r.length = 5 ∧
      (∃ d, r.head? = some (Cell.strv d) ∧ matchDate d = true) ∧
      (∀ c ∈ r.drop 2, c = Cell.missing ∨ ∃ q, c = Cell.numv q) := by
  refine ⟨rfl, ?_⟩
  intro r hr
  unfold finalize at hr
  simp only [List.mem_map, List.mem_filter] at hr
  obtain ⟨fr, ⟨⟨hfr0, h1⟩, h2⟩, hmap⟩ := hr
  obtain ⟨r₀, hr₀, hto⟩ := hfr0
  obtain ⟨d, hd⟩ := Option.isSome_iff_exists.mp h1
  rw [hd] at h2
  subst hmap
  refine ⟨rfl, ⟨d, ?_, ?_⟩, ?_⟩
  · have hh : (frowCells fr).head?
        = some (match fr.date with
            | some x => Cell.strv x
            | none => Cell.missing) := rfl
    rw [hh, hd]
  · exact h2
  · intro c hc
    have hdrop : (frowCells fr).drop 2 = [fr.debit, fr.credit, fr.balance] := rfl
    rw [hdrop] at hc
    subst hto
    simp only [List.mem_cons, List.not_mem_nil, or_false] at hc
    rcases hc with hc | hc | hc <;> rw [hc] <;> exact coerceAmt_shape _

/-- C8: whenever the fallback parser returns a result table, it has
exactly the five schema columns in order; every retained row has five
cells, its Date cell is a string matching the `DD-MM-YYYY` pattern
(rows with a missing or non-matching date having been dropped); its
three amount cells are numeric or the missing marker — and the amount
coercion itself always yields a number or the missing marker, never an
error that would drop a row. -/
theorem fallback_parse_schema_invariant (ts : List RawGrid) (t : Table)
    (h : fallback_parse ts = Except.ok t) :
    t.cols = schemaCols ∧
    (∀ r ∈ t.rows, r.length = 5 ∧
      (∃ d, r.head? = some (Cell.strv d) ∧ matchDate d = true) ∧
      (∀ c ∈ r.drop 2, c = Cell.missing ∨ ∃ q, c = Cell.numv q)) ∧
    (∀ os, coerceAmt os = Cell.missing ∨ ∃ q, coerceAmt os = Cell.numv q) := by
  have hmain : ∃ rs, t = finalize rs := by
    simp only [fallback_parse] at h
    split at h
    · cases h
    · split at h
      · cases h
      · split at h
        · exact ⟨_, (Except.ok.inj h).symm⟩
        · split at h
          · cases h
          · split at h
            · cases h
            · split at h
              · cases h
              · exact ⟨_, (Except.ok.inj h).symm⟩
  obtain ⟨rs, ht⟩ := hmain
  subst ht
  exact ⟨(fallback_finalize_shape rs).1, (fallback_finalize_shape rs).2,
    coerceAmt_shape⟩

/-- Witness for C8 at a concrete set of raw grids: a banner row, the
header row, one transaction (with a non-numeric credit cell) and one
junk row. -/
theorem fallback_parse_schema_invariant_witness :
    (⟨schemaCols,
      [[Cell.strv "01-04-2024", Cell.strv "UPI Payment",
        Cell.numv ((500 : Nat) : ℚ), Cell.missing,
        Cell.numv ((10000 : Nat) : ℚ)]]⟩ : Table).cols = schemaCols ∧
    (∀ r ∈ (⟨schemaCols,
      [[Cell.strv "01-04-2024", Cell.strv "UPI Payment",
        Cell.numv ((500 : Nat) : ℚ), Cell.missing,
        Cell.numv ((10000 : Nat) : ℚ)]]⟩ : Table).rows, r.length = 5 ∧
      (∃ d, r.head? = some (Cell.strv d) ∧ matchDate d = true) ∧
      (∀ c ∈ r.drop 2, c = Cell.missing ∨ ∃ q, c = Cell.numv q)) ∧
    (∀ os, coerceAmt os = Cell.missing ∨ ∃ q, coerceAmt os = Cell.numv q) :=
  fallback_parse_schema_invariant
    [[["Bank Statement", "", ""],
      ["Date", "Description", "Debit Amt", "Credit Amt", "Balance"],
      ["01-04-2024", "UPI Payment", "500", "n/a", "10000"],
      ["junk", "x", "y", "z", "w"]]]
    ⟨schemaCols,
      [[Cell.strv "01-04-2024", Cell.strv "UPI Payment",
        Cell.numv ((500 : Nat) : ℚ), Cell.missing,
        Cell.numv ((10000 : Nat) : ℚ)]]⟩
    rfl

end Agent
